import Mathlib

/-!
Shallow embedding of the airquality-rwanda ETL pipeline
(`src/etl/extract_purpleair.py`, `src/etl/transform.py`,
`src/etl/data_quality.py`, `src/db_utils.py`, `src/etl/main.py`)
together with proofs of the spec's testable properties.
-/

namespace AirQuality

/-- Cell values appearing in API payloads and data frames.
`nullV` models Python `None` / pandas `NaN`/`NaT`; `tsUtc n` models a
UTC timestamp obtained from epoch second `n` via
`pd.to_datetime(..., unit="s", utc=True)`. -/
inductive Val where
  | intV (n : Int)
  | strV (s : String)
  | tsUtc (epochSec : Int)
  | nullV
deriving DecidableEq, Repr

/-- An HTTP response as `_fetch_multi_sensor` consumes it: the status code
plus the parsed JSON body's `fields` and `data` entries (the code reads them
with `data.get("fields", [])` / `data.get("data", [])`, so the `[]` defaults
are already applied here). -/
structure HttpResponse where
  status : Nat
  fields : List String
  dataRows : List (List Val)
deriving DecidableEq, Repr

/-- Errors `_fetch_multi_sensor` can raise: the explicit `ValueError` on
mismatched argument lengths, and the `requests.HTTPError` produced by
`resp.raise_for_status()` on a status `>= 400`. -/
inductive FetchError where
  | valueError (msg : String)
  | httpError (status : Nat)
deriving DecidableEq, Repr

/-- One parsed row: `dict(zip(field_names, row))`, kept as the list of
(field, value) pairs produced by `zip` (which truncates to the shorter list). -/
def parseRow (fields : List String) (row : List Val) : List (String × Val) :=
  List.zip fields row

/-- Rows parsed from a successful response:
`[dict(zip(field_names, row)) for row in data.get("data", [])]`. -/
def parseRows (resp : HttpResponse) : List (List (String × Val)) :=
  resp.dataRows.map (fun row => parseRow resp.fields row)

/-- Outcome of a call to the extractor: the sleeps performed (in the time
units of `time.sleep`), the number of HTTP requests issued, and the returned
rows or the raised error. -/
structure FetchResult where
  sleeps : List ℚ
  requests : Nat
  result : Except FetchError (List (List (String × Val)))
deriving Repr

/-- The retry loop of `_fetch_multi_sensor` (`for attempt in range(max_retries)`),
followed by the final unconditional request after retry exhaustion.
`net i` is the response the network returns to the i-th request issued;
`reqIdx` counts requests already issued and `sleeps` accumulates the delays
passed to `time.sleep` so far. -/
def fetchAttempts (net : Nat → HttpResponse) (attemptsLeft : Nat) (delay : ℚ)
    (reqIdx : Nat) (sleeps : List ℚ) : FetchResult :=
  match attemptsLeft with
  | 0 =>
      -- "If we exhausted retries on 429": one more request, no sleep,
      -- plain raise_for_status then parse.
      let resp := net reqIdx
      if 400 ≤ resp.status then
        ⟨sleeps, reqIdx + 1, .error (.httpError resp.status)⟩
      else
        ⟨sleeps, reqIdx + 1, .ok (parseRows resp)⟩
  | n + 1 =>
      -- time.sleep(delay); resp = requests.get(...)
      let sleeps' := sleeps ++ [delay]
      let resp := net reqIdx
      if resp.status = 429 then
        -- delay *= 2; continue
        fetchAttempts net n (delay * 2) (reqIdx + 1) sleeps'
      else if 400 ≤ resp.status then
        -- resp.raise_for_status()
        ⟨sleeps', reqIdx + 1, .error (.httpError resp.status)⟩
      else
        ⟨sleeps', reqIdx + 1, .ok (parseRows resp)⟩

/-- `_fetch_multi_sensor(sensor_ids, read_keys, fields, max_retries=5)`.
The network is abstracted as the function `net` giving the response to each
successive request; URL, headers and query parameters do not influence the
control flow modelled here. -/
def fetch_multi_sensor (sensor_ids : List Int) (read_keys : List String)
    (net : Nat → HttpResponse) (max_retries : Nat) : FetchResult :=
  if sensor_ids.length ≠ read_keys.length then
    ⟨[], 0, .error (.valueError "sensor_ids and read_keys must be the same length")⟩
  else
    fetchAttempts net max_retries (1/2) 0 []

/-- `extract_purpleair_data()`: the configured sensors are passed in as the
id → read-key association produced by `Config.get_private_sensors()`
(already converted via `int(sid)`). An empty mapping raises
`ValueError("No PurpleAir sensors configured")` before any request. -/
def extract_purpleair_data (sensors : List (Int × String))
    (net : Nat → HttpResponse) : FetchResult :=
  if sensors.isEmpty then
    ⟨[], 0, .error (.valueError "No PurpleAir sensors configured")⟩
  else
    fetch_multi_sensor (sensors.map Prod.fst) (sensors.map Prod.snd) net 5

/-- A bare 429 rate-limit response (its body is never parsed). -/
def resp429 : HttpResponse := ⟨429, [], []⟩

/-- A 200 response carrying the given `fields` and `data` lists. -/
def resp200 (fields : List String) (dataRows : List (List Val)) : HttpResponse :=
  ⟨200, fields, dataRows⟩

/-- C1: on the response sequence [429, 429, 200] the extractor issues exactly
3 requests, sleeps before every attempt (the first included) with delays
1/2, 1, 2 — so the wait before the 3rd request is twice the wait before the
2nd, the delay having doubled after each 429 — and returns the rows obtained
by zipping the 200 response's `fields` list with each inner list of its
`data` list. -/
theorem fetch_retry_scenario (ids : List Int) (keys : List String)
    (fields : List String) (dataRows : List (List Val))
    (h : ids.length = keys.length) :
    fetch_multi_sensor ids keys
        (fun i => if i < 2 then resp429 else resp200 fields dataRows) 5 =
      ⟨[1/2, 1, 2], 3, .ok (dataRows.map (parseRow fields))⟩ ∧
    (∃ w : ℚ, fetch_multi_sensor ids keys
        (fun i => if i < 2 then resp429 else resp200 fields dataRows) 5 =
      ⟨[1/2, w, 2 * w], 3, .ok (dataRows.map (parseRow fields))⟩) := by
  have hfetch : fetch_multi_sensor ids keys
      (fun i => if i < 2 then resp429 else resp200 fields dataRows) 5 =
      ⟨[1/2, 1, 2], 3, .ok (dataRows.map (parseRow fields))⟩ := by
    simp only [fetch_multi_sensor, h, ne_eq, not_true_eq_false, if_false]
    norm_num [fetchAttempts, resp429, resp200, parseRows]
  exact ⟨hfetch, 1, by rw [hfetch]; norm_num⟩

/-- Witness for `fetch_retry_scenario` at a concrete input. -/
theorem fetch_retry_scenario_witness :
    fetch_multi_sensor [1] ["k"]
        (fun i => if i < 2 then resp429 else resp200 ["a"] [[Val.intV 7]]) 5 =
      ⟨[1/2, 1, 2], 3, .ok ([[Val.intV 7]].map (parseRow ["a"]))⟩ ∧
    (∃ w : ℚ, fetch_multi_sensor [1] ["k"]
        (fun i => if i < 2 then resp429 else resp200 ["a"] [[Val.intV 7]]) 5 =
      ⟨[1/2, w, 2 * w], 3, .ok ([[Val.intV 7]].map (parseRow ["a"]))⟩) :=
  fetch_retry_scenario [1] ["k"] ["a"] [[Val.intV 7]] rfl

/-- C2: when all 5 retry attempts receive HTTP 429, the extractor issues one
final unconditional request (6 requests in total) and surfaces that final
request's result or error as-is: any status `≥ 400` — a 429 included — is
raised via `raise_for_status`, and anything else is parsed into rows. -/
theorem fetch_exhaustion_final_call (ids : List Int) (keys : List String)
    (f : HttpResponse) (h : ids.length = keys.length) :
    (fetch_multi_sensor ids keys (fun i => if i < 5 then resp429 else f) 5).requests
        = 6 ∧
    (fetch_multi_sensor ids keys (fun i => if i < 5 then resp429 else f) 5).result
        = (if 400 ≤ f.status then .error (.httpError f.status)
           else .ok (parseRows f)) := by
  have hfetch : fetch_multi_sensor ids keys
      (fun i => if i < 5 then resp429 else f) 5 =
      if 400 ≤ f.status then ⟨[1/2, 1, 2, 4, 8], 6, .error (.httpError f.status)⟩
      else ⟨[1/2, 1, 2, 4, 8], 6, .ok (parseRows f)⟩ := by
    simp only [fetch_multi_sensor, h, ne_eq, not_true_eq_false, if_false]
    norm_num [fetchAttempts, resp429]
  by_cases hs : 400 ≤ f.status <;> simp [hfetch, hs]

/-- Witness for `fetch_exhaustion_final_call`: the final request itself
answers 429 and is raised like any other 4xx error. -/
theorem fetch_exhaustion_final_call_witness :
    (fetch_multi_sensor [1] ["k"] (fun i => if i < 5 then resp429 else resp429) 5).requests
        = 6 ∧
    (fetch_multi_sensor [1] ["k"] (fun i => if i < 5 then resp429 else resp429) 5).result
        = (if 400 ≤ resp429.status then .error (.httpError resp429.status)
           else .ok (parseRows resp429)) :=
  fetch_exhaustion_final_call [1] ["k"] resp429 rfl

/-- C8: with an empty configured sensor mapping, `extract_purpleair_data`
raises `ValueError("No PurpleAir sensors configured")` — the spec's
ConfigurationError category — before any network activity: zero HTTP
requests are issued, whatever the network would have answered. -/
theorem extract_no_sensors_fails_fast (net : Nat → HttpResponse) :
    extract_purpleair_data [] net =
      ⟨[], 0, .error (.valueError "No PurpleAir sensors configured")⟩ := rfl

/-- C10: when `sensor_ids` and `read_keys` have different lengths,
`_fetch_multi_sensor` raises
`ValueError("sensor_ids and read_keys must be the same length")` before
issuing any HTTP request, for any retry budget and any network behaviour. -/
theorem fetch_length_mismatch_fails_fast (ids : List Int) (keys : List String)
    (net : Nat → HttpResponse) (m : Nat) (h : ids.length ≠ keys.length) :
    fetch_multi_sensor ids keys net m =
      ⟨[], 0, .error (.valueError "sensor_ids and read_keys must be the same length")⟩ := by
  simp [fetch_multi_sensor, h]

/-- Witness for `fetch_length_mismatch_fails_fast` at a concrete input. -/
theorem fetch_length_mismatch_fails_fast_witness :
    fetch_multi_sensor [1] [] (fun _ => resp429) 5 =
      ⟨[], 0, .error (.valueError "sensor_ids and read_keys must be the same length")⟩ :=
  fetch_length_mismatch_fails_fast [1] [] (fun _ => resp429) 5 (by decide)

/-! ### Persistence layer (`src/db_utils.py`, `upsert_df`) -/

/-- A database (or DataFrame) row, as the association of column names to
values carried by the generated `INSERT INTO ... (cols) VALUES (...)`. -/
abbrev DbRow := List (String × Val)

/-- The value a row holds in a column. -/
def colValue (r : DbRow) (c : String) : Option Val :=
  (r.find? (fun p => p.1 = c)).map Prod.snd

/-- The tuple of a row's values on the conflict-defining columns. -/
def conflictKey (cf : List String) (r : DbRow) : List (Option Val) :=
  cf.map (colValue r)

/-- Modelled from the spec: the relational store's
`ON CONFLICT (cols) DO NOTHING` semantics for one inserted row — "insert,
and on conflict on those columns do nothing": the row is appended unless an
existing row already carries the same values on the conflict columns, in
which case it is silently skipped, never updated. (The store itself is an
external collaborator; only the statement built by `upsert_df` is in
`src/`.) -/
def insertOnConflict (cf : List String) (t : List DbRow) (r : DbRow) : List DbRow :=
  if t.any (fun s => conflictKey cf s = conflictKey cf r) then t else t ++ [r]

/-- The effect of the whole batch (`extras.execute_batch` running the INSERT
template once per DataFrame row, in row order) on the table contents. -/
def loadBatch (cf : List String) (t : List DbRow) (rows : List DbRow) : List DbRow :=
  rows.foldl (insertOnConflict cf) t

/-- One statement execution inside the batch: `fails r` says whether the
database errors on the statement for row `r` (constraint violation other
than the handled conflict, type error, connection loss, ...). On the first
failure the exception aborts the rest of the batch. -/
def execBatch (fails : DbRow → Bool) (cf : List String) (t : List DbRow) :
    List DbRow → Except Unit (List DbRow)
  | [] => .ok t
  | r :: rest =>
      if fails r then .error ()
      else execBatch fails cf (insertOnConflict cf t r) rest

/-- Observable outcome of a call to `upsert_df`: whether an exception
propagated to the caller, the committed table contents visible after the
call, and whether the connection was touched at all (cursor opened,
statements executed or commit issued). -/
structure UpsertOutcome where
  raised : Bool
  committed : List DbRow
  touched : Bool
deriving Repr, DecidableEq

/-- `upsert_df(df, schema, table_name, cxn, conflict_fields)`: an empty
DataFrame returns immediately; otherwise the batch runs inside the
connection's transaction and `cxn.commit()` happens only after the whole
batch succeeded, so a failing statement leaves the committed state
unchanged. `dfRows` is `[tuple(row) for row in df.to_numpy()]` tagged with
the DataFrame's columns; `committedT` the table contents committed before
the call. -/
def upsert_df (fails : DbRow → Bool) (cf : List String)
    (committedT : List DbRow) (dfRows : List DbRow) : UpsertOutcome :=
  if dfRows.isEmpty then ⟨false, committedT, false⟩
  else
    match execBatch fails cf committedT dfRows with
    | .error _ => ⟨true, committedT, true⟩
    | .ok t => ⟨false, t, true⟩

/-- Inserting a row leaves the table unchanged or appends exactly that row. -/
theorem insertOnConflict_eq_or_append (cf : List String) (t : List DbRow)
    (r : DbRow) :
    insertOnConflict cf t r = t ∨ insertOnConflict cf t r = t ++ [r] := by
  unfold insertOnConflict
  by_cases h : t.any (fun s => conflictKey cf s = conflictKey cf r) <;> simp [h]

/-- A batch load only ever appends rows after the existing table contents. -/
theorem loadBatch_append_only (cf : List String) (rows : List DbRow)
    (t : List DbRow) : ∃ added, loadBatch cf t rows = t ++ added := by
  induction rows generalizing t with
  | nil => exact ⟨[], by simp [loadBatch]⟩
  | cons r rest ih =>
      rcases insertOnConflict_eq_or_append cf t r with h | h
      · obtain ⟨added, hadd⟩ := ih (insertOnConflict cf t r)
        exact ⟨added, by simpa [loadBatch, h] using hadd⟩
      · obtain ⟨added, hadd⟩ := ih (insertOnConflict cf t r)
        refine ⟨[r] ++ added, ?_⟩
        simpa [loadBatch, h] using hadd

/-- After inserting `r`, some table row shares `r`'s conflict key. -/
theorem insertOnConflict_covers (cf : List String) (t : List DbRow) (r : DbRow) :
    ∃ s ∈ insertOnConflict cf t r, conflictKey cf s = conflictKey cf r := by
  unfold insertOnConflict
  by_cases h : t.any (fun s => conflictKey cf s = conflictKey cf r)
  · simp only [h, if_true]
    obtain ⟨s, hs, hk⟩ := List.any_eq_true.mp h
    exact ⟨s, hs, of_decide_eq_true hk⟩
  · exact ⟨r, by simp [h]⟩

/-- After a batch load, every loaded row has a conflict-key match in the
resulting table. -/
theorem loadBatch_covers (cf : List String) (rows : List DbRow)
    (t : List DbRow) (r : DbRow) (hr : r ∈ rows) :
    ∃ s ∈ loadBatch cf t rows, conflictKey cf s = conflictKey cf r := by
  induction rows generalizing t with
  | nil => cases hr
  | cons a rest ih =>
      rcases List.mem_cons.mp hr with rfl | hr
      · obtain ⟨s, hs, hk⟩ := insertOnConflict_covers cf t r
        obtain ⟨added, hadd⟩ := loadBatch_append_only cf rest (insertOnConflict cf t r)
        refine ⟨s, ?_, hk⟩
        have : loadBatch cf t (r :: rest) = loadBatch cf (insertOnConflict cf t r) rest := by
          simp [loadBatch]
        rw [this, hadd]
        exact List.mem_append_left _ hs
      · have : loadBatch cf t (a :: rest) = loadBatch cf (insertOnConflict cf t a) rest := by
          simp [loadBatch]
        rw [this]
        exact ih (insertOnConflict cf t a) hr

/-- If every row of the batch already has a conflict-key match in the table,
the batch load is a no-op. -/
theorem loadBatch_noop (cf : List String) (rows : List DbRow) (t : List DbRow)
    (h : ∀ r ∈ rows, ∃ s ∈ t, conflictKey cf s = conflictKey cf r) :
    loadBatch cf t rows = t := by
  induction rows with
  | nil => simp [loadBatch]
  | cons r rest ih =>
      obtain ⟨s, hs, hk⟩ := h r (List.mem_cons_self r rest)
      have hins : insertOnConflict cf t r = t := by
        unfold insertOnConflict
        have : t.any (fun s => conflictKey cf s = conflictKey cf r) := by
          exact List.any_eq_true.mpr ⟨s, hs, decide_eq_true hk⟩
        simp [this]
      have : loadBatch cf t (r :: rest) = loadBatch cf (insertOnConflict cf t r) rest := by
        simp [loadBatch]
      rw [this, hins]
      exact ih (fun r' hr' => h r' (List.mem_cons_of_mem r hr'))

/-- Loading the same batch twice is the same as loading it once. -/
theorem loadBatch_idem (cf : List String) (t : List DbRow) (rows : List DbRow) :
    loadBatch cf (loadBatch cf t rows) rows = loadBatch cf t rows :=
  loadBatch_noop cf rows (loadBatch cf t rows)
    (fun r hr => loadBatch_covers cf rows t r hr)

/-- When no statement fails, the batch succeeds and computes the load. -/
theorem execBatch_ok (fails : DbRow → Bool) (cf : List String)
    (rows : List DbRow) (t : List DbRow) (h : ∀ r ∈ rows, fails r = false) :
    execBatch fails cf t rows = .ok (loadBatch cf t rows) := by
  induction rows generalizing t with
  | nil => simp [execBatch, loadBatch]
  | cons r rest ih =>
      have hr : fails r = false := h r (List.mem_cons_self r rest)
      simp only [execBatch, hr, Bool.false_eq_true, if_false]
      rw [ih (insertOnConflict cf t r) (fun r' hr' => h r' (List.mem_cons_of_mem r hr'))]
      simp [loadBatch]

/-- If some row of the batch fails, the batch execution errors. -/
theorem execBatch_error (fails : DbRow → Bool) (cf : List String)
    (rows : List DbRow) (t : List DbRow) (h : ∃ r ∈ rows, fails r = true) :
    execBatch fails cf t rows = .error () := by
  induction rows generalizing t with
  | nil => obtain ⟨r, hr, _⟩ := h; cases hr
  | cons a rest ih =>
      by_cases ha : fails a = true
      · simp [execBatch, ha]
      · obtain ⟨r, hr, hfr⟩ := h
        rcases List.mem_cons.mp hr with rfl | hr
        · exact absurd hfr ha
        · simp only [execBatch, ha, if_false]
          exact ih (insertOnConflict cf t a) ⟨r, hr, hfr⟩

/-- C3: loading the same non-empty batch twice through `upsert_df` with
conflict columns supplied is idempotent: the second load raises no error,
changes nothing — in particular the committed row count is unchanged — and
neither load ever updates a row (each load only appends after the existing
contents). Statements themselves do not fail here; conflicts are absorbed
by `ON CONFLICT (cols) DO NOTHING`. -/
theorem upsert_df_idempotent (cf : List String) (committedT : List DbRow)
    (rows : List DbRow) (hrows : rows ≠ []) (hcf : cf ≠ []) :
    (upsert_df (fun _ => false) cf
        (upsert_df (fun _ => false) cf committedT rows).committed rows).committed =
      (upsert_df (fun _ => false) cf committedT rows).committed ∧
    (upsert_df (fun _ => false) cf
        (upsert_df (fun _ => false) cf committedT rows).committed rows).committed.length =
      (upsert_df (fun _ => false) cf committedT rows).committed.length ∧
    (upsert_df (fun _ => false) cf
        (upsert_df (fun _ => false) cf committedT rows).committed rows).raised = false ∧
    (∃ added, (upsert_df (fun _ => false) cf committedT rows).committed =
      committedT ++ added) ∧
    (∃ added, (upsert_df (fun _ => false) cf
        (upsert_df (fun _ => false) cf committedT rows).committed rows).committed =
      (upsert_df (fun _ => false) cf committedT rows).committed ++ added) := by
  have hne : rows.isEmpty = false := by
    cases rows with
    | nil => exact absurd rfl hrows
    | cons a l => rfl
  have hok : ∀ t : List DbRow,
      upsert_df (fun _ => false) cf t rows = ⟨false, loadBatch cf t rows, true⟩ := by
    intro t
    simp only [upsert_df, hne, Bool.false_eq_true, if_false]
    rw [execBatch_ok (fun _ => false) cf rows t (fun _ _ => rfl)]
  have h1 := hok committedT
  have h2 := hok (upsert_df (fun _ => false) cf committedT rows).committed
  refine ⟨?_, ?_, ?_, ?_, ?_⟩
  · rw [h2, h1]
    exact loadBatch_idem cf committedT rows
  · rw [h2, h1]
    rw [show (UpsertOutcome.mk false (loadBatch cf (loadBatch cf committedT rows) rows) true).committed
        = loadBatch cf (loadBatch cf committedT rows) rows from rfl]
    rw [loadBatch_idem cf committedT rows]
  · rw [h2]
  · rw [h1]
    exact loadBatch_append_only cf rows committedT
  · rw [h2, h1]
    exact loadBatch_append_only cf rows (loadBatch cf committedT rows)

/-- Witness for `upsert_df_idempotent` at a concrete input. -/
theorem upsert_df_idempotent_witness :
    (upsert_df (fun _ => false) ["sensor_id"]
        (upsert_df (fun _ => false) ["sensor_id"] []
          [[("sensor_id", Val.intV 1)]]).committed
        [[("sensor_id", Val.intV 1)]]).committed =
      (upsert_df (fun _ => false) ["sensor_id"] []
        [[("sensor_id", Val.intV 1)]]).committed ∧
    (upsert_df (fun _ => false) ["sensor_id"]
        (upsert_df (fun _ => false) ["sensor_id"] []
          [[("sensor_id", Val.intV 1)]]).committed
        [[("sensor_id", Val.intV 1)]]).committed.length =
      (upsert_df (fun _ => false) ["sensor_id"] []
        [[("sensor_id", Val.intV 1)]]).committed.length ∧
    (upsert_df (fun _ => false) ["sensor_id"]
        (upsert_df (fun _ => false) ["sensor_id"] []
          [[("sensor_id", Val.intV 1)]]).committed
        [[("sensor_id", Val.intV 1)]]).raised = false ∧
    (∃ added, (upsert_df (fun _ => false) ["sensor_id"] []
        [[("sensor_id", Val.intV 1)]]).committed = [] ++ added) ∧
    (∃ added, (upsert_df (fun _ => false) ["sensor_id"]
        (upsert_df (fun _ => false) ["sensor_id"] []
          [[("sensor_id", Val.intV 1)]]).committed
        [[("sensor_id", Val.intV 1)]]).committed =
      (upsert_df (fun _ => false) ["sensor_id"] []
        [[("sensor_id", Val.intV 1)]]).committed ++ added) :=
  upsert_df_idempotent ["sensor_id"] [] [[("sensor_id", Val.intV 1)]]
    (by decide) (by decide)

/-- C4: `upsert_df` commits only after the whole batch succeeded — if every
statement succeeds the full load is committed; if any statement fails the
exception propagates with the committed state unchanged (no partial
commit); and an empty DataFrame returns immediately with no connection
activity at all. -/
theorem upsert_df_commit_discipline (fails : DbRow → Bool) (cf : List String)
    (committedT : List DbRow) (rows : List DbRow) :
    (upsert_df fails cf committedT [] = ⟨false, committedT, false⟩) ∧
    ((∃ r ∈ rows, fails r = true) →
      upsert_df fails cf committedT rows = ⟨true, committedT, true⟩) ∧
    ((rows ≠ [] ∧ ∀ r ∈ rows, fails r = false) →
      upsert_df fails cf committedT rows =
        ⟨false, loadBatch cf committedT rows, true⟩) := by
  refine ⟨rfl, ?_, ?_⟩
  · intro h
    have hne : rows.isEmpty = false := by
      obtain ⟨r, hr, _⟩ := h
      cases rows with
      | nil => cases hr
      | cons a l => rfl
    simp only [upsert_df, hne, Bool.false_eq_true, if_false]
    rw [execBatch_error fails cf rows committedT h]
  · rintro ⟨hrows, hall⟩
    have hne : rows.isEmpty = false := by
      cases rows with
      | nil => exact absurd rfl hrows
      | cons a l => rfl
    simp only [upsert_df, hne, Bool.false_eq_true, if_false]
    rw [execBatch_ok fails cf rows committedT hall]

/-- Witness for `upsert_df_commit_discipline`, discharging each hypothesis
at a concrete input: the empty no-op, a failing batch left uncommitted, and
a succeeding batch committed in full. -/
theorem upsert_df_commit_discipline_witness :
    (upsert_df (fun _ => true) [] [] [] = ⟨false, [], false⟩) ∧
    (upsert_df (fun _ => true) [] [] [[("a", Val.intV 1)]] =
      ⟨true, [], true⟩) ∧
    (upsert_df (fun _ => false) [] [] [[("a", Val.intV 1)]] =
      ⟨false, loadBatch [] [] [[("a", Val.intV 1)]], true⟩) := by
  refine ⟨(upsert_df_commit_discipline (fun _ => true) [] [] []).1, ?_, ?_⟩
  · exact (upsert_df_commit_discipline (fun _ => true) [] []
      [[("a", Val.intV 1)]]).2.1 ⟨[("a", Val.intV 1)], by decide, rfl⟩
  · exact (upsert_df_commit_discipline (fun _ => false) [] []
      [[("a", Val.intV 1)]]).2.2 ⟨by decide, fun _ _ => rfl⟩

/-! ### Transformer (`src/etl/transform.py`) -/

/-- A pandas DataFrame, modelled column-wise: the ordered list of
(column label, column values) pairs. All columns of a well-formed frame
have the same length (the row count). -/
abbrev Frame := List (String × List Val)

/-- The frame's column labels, in order (`df.columns`). -/
def frameCols (df : Frame) : List String := df.map Prod.fst

/-- `pd.DataFrame(data, columns=fields)` for a list-of-lists payload: the
i-th field labels the column of i-th positional values; rows shorter than
`fields` are padded with NaN (`nullV`). -/
def buildFrame : List String → List (List Val) → Frame
  | [], _ => []
  | c :: cs, dataRows =>
      (c, dataRows.map (fun row => row.head?.getD Val.nullV)) ::
        buildFrame cs (dataRows.map List.tail)

/-- Key set of a list of records in order of first appearance, as
`pd.DataFrame(list_of_dicts)` orders its columns. -/
def recordKeys (recs : List (List (String × Val))) : List String :=
  recs.foldl (fun acc r => (r.map Prod.fst).foldl
    (fun acc' k => if k ∈ acc' then acc' else acc' ++ [k]) acc) []

/-- `pd.DataFrame(list_of_dicts)`: one column per key, missing entries NaN. -/
def recordsFrame (recs : List (List (String × Val))) : Frame :=
  (recordKeys recs).map (fun k =>
    (k, recs.map (fun r => ((r.find? (fun p => p.1 = k)).map Prod.snd).getD Val.nullV)))

/-- Dot-to-underscore renaming of one label: `c.replace(".", "_")`. With a
single-character pattern and replacement, string replace is exactly the
character-wise map. -/
def normName (c : String) : String :=
  ⟨c.data.map (fun ch => if ch = '.' then '_' else ch)⟩

/-- `_normalize_columns`: replace dots in column names with underscores. -/
def normalize_columns (df : Frame) : Frame :=
  df.map (fun c => (normName c.1, c.2))

/-- The values of the column labelled `n` (first such column), `[]` if absent. -/
def getColVals (df : Frame) (n : String) : List Val :=
  ((df.find? (fun c => c.1 = n)).map Prod.snd).getD []

/-- `df[n] = vs`: overwrite the column in place when the label exists,
otherwise append it as the last column. -/
def setCol (df : Frame) (n : String) (vs : List Val) : Frame :=
  if n ∈ frameCols df then
    df.map (fun c => if c.1 = n then (n, vs) else c)
  else df ++ [(n, vs)]

/-- `df.drop(columns=[n])`: remove every column labelled `n`. -/
def dropCol (df : Frame) (n : String) : Frame :=
  df.filter (fun c => c.1 ≠ n)

/-- `pd.to_datetime(v, unit="s", utc=True)` on one cell: an epoch-second
integer becomes a UTC timestamp; NaN becomes NaT. -/
def toDatetimeUtc : Val → Val
  | .intV n => .tsUtc n
  | _ => .nullV

/-- The body of `transform_purpleair_data` after the DataFrame was built:
normalize column names, then, when a `last_seen` column exists, derive the
UTC `time_stamp` column from it and drop `last_seen`. -/
def transformCore (df0 : Frame) : Frame :=
  let df := normalize_columns df0
  if "last_seen" ∈ frameCols df then
    dropCol (setCol df "time_stamp" ((getColVals df "last_seen").map toDatetimeUtc))
      "last_seen"
  else df

/-- The shapes `transform_purpleair_data` accepts: a mapping carrying both
`fields` and `data` keys, or a plain list of per-sensor records. -/
inductive ApiData where
  | fieldsData (fields : List String) (dataRows : List (List Val))
  | records (recs : List (List (String × Val)))

/-- Python truthiness of the payload (`if not api_data`): a mapping holding
both keys is never falsy; a record list is falsy exactly when empty. `none`
stands for the remaining falsy payloads (`None`, `{}`, `""`, `0`). -/
def ApiData.isFalsy : ApiData → Bool
  | .fieldsData _ _ => false
  | .records recs => recs.isEmpty

/-- `transform_purpleair_data(api_data)`. -/
def transform_purpleair_data : Option ApiData → Frame
  | none => []
  | some a =>
      if a.isFalsy then []
      else
        match a with
        | .fieldsData fields dataRows => transformCore (buildFrame fields dataRows)
        | .records recs => transformCore (recordsFrame recs)

/-- Building a frame from `fields`/`data` labels the columns by `fields`. -/
theorem frameCols_buildFrame (fields : List String) (dataRows : List (List Val)) :
    frameCols (buildFrame fields dataRows) = fields := by
  induction fields generalizing dataRows with
  | nil => rfl
  | cons c cs ih => simp [buildFrame, frameCols] at ih ⊢; exact ih _

/-- Normalizing renames the labels and keeps the values. -/
theorem frameCols_normalize (df : Frame) :
    frameCols (normalize_columns df) = (frameCols df).map normName := by
  simp [frameCols, normalize_columns, normName, List.map_map, Function.comp]

/-- Setting an existing column keeps the label list; setting a new one
appends its label. -/
theorem frameCols_setCol (df : Frame) (n : String) (vs : List Val) :
    frameCols (setCol df n vs) =
      if n ∈ frameCols df then frameCols df else frameCols df ++ [n] := by
  by_cases h : n ∈ frameCols df
  · rw [setCol, if_pos h, if_pos h]
    show List.map Prod.fst (df.map fun c => if c.1 = n then (n, vs) else c) = frameCols df
    rw [List.map_map]
    refine List.map_congr_left ?_
    intro c _
    by_cases hc : c.1 = n <;> simp [hc, Function.comp]
  · rw [setCol, if_neg h, if_neg h]
    simp [frameCols]

/-- Dropping a column filters its label out of the label list. -/
theorem frameCols_dropCol (df : Frame) (n : String) :
    frameCols (dropCol df n) = (frameCols df).filter (fun c => c ≠ n) := by
  induction df with
  | nil => rfl
  | cons c cs ih =>
      by_cases hc : c.1 = n <;>
        simp [dropCol, frameCols, hc, List.filter_cons] at ih ⊢ <;>
        simpa [dropCol, frameCols] using ih

/-- `frameCols` unfolds on a cons cell. -/
theorem frameCols_cons (c : String × List Val) (cs : Frame) :
    frameCols (c :: cs) = c.1 :: frameCols cs := rfl

/-- Reading the head column's label gives the head column's values. -/
theorem getColVals_cons_pos (c : String × List Val) (cs : Frame) (n : String)
    (hcn : c.1 = n) : getColVals (c :: cs) n = c.2 := by
  unfold getColVals
  rw [List.find?_cons_of_pos _ (by simp [hcn])]
  rfl

/-- Reading a label other than the head's skips the head column. -/
theorem getColVals_cons_neg (c : String × List Val) (cs : Frame) (n : String)
    (hcn : ¬ c.1 = n) : getColVals (c :: cs) n = getColVals cs n := by
  unfold getColVals
  rw [List.find?_cons_of_neg _ (by simp [hcn])]

/-- Dropping a label keeps a differently-labelled head column. -/
theorem dropCol_cons_keep (c : String × List Val) (cs : Frame) (m : String)
    (hcm : ¬ c.1 = m) : dropCol (c :: cs) m = c :: dropCol cs m := by
  simp [dropCol, List.filter_cons, hcm]

/-- Dropping a label removes a head column carrying it. -/
theorem dropCol_cons_drop (c : String × List Val) (cs : Frame) (m : String)
    (hcm : c.1 = m) : dropCol (c :: cs) m = dropCol cs m := by
  simp [dropCol, List.filter_cons, hcm]

/-- A label absent from the frame is never found. -/
theorem find?_none_of_not_mem (df : Frame) (n : String) (h : n ∉ frameCols df) :
    df.find? (fun c => c.1 = n) = none := by
  induction df with
  | nil => rfl
  | cons c cs ih =>
      rw [frameCols_cons] at h
      have hc : ¬ c.1 = n := fun he => h (List.mem_cons.mpr (Or.inl he.symm))
      have hcs : n ∉ frameCols cs := fun he => h (List.mem_cons.mpr (Or.inr he))
      rw [List.find?_cons_of_neg _ (by simp [hc]), ih hcs]

/-- Overwriting an existing column makes its values the given ones. -/
theorem find?_setCol_mem (df : Frame) (n : String) (vs : List Val)
    (h : n ∈ frameCols df) :
    (df.map (fun c => if c.1 = n then (n, vs) else c)).find?
      (fun c => c.1 = n) = some (n, vs) := by
  induction df with
  | nil => cases h
  | cons c cs ih =>
      by_cases hc : c.1 = n
      · simp only [List.map_cons, hc, if_true]
        rw [List.find?_cons_of_pos _ (by simp)]
      · have hcs : n ∈ frameCols cs := by
          rw [frameCols_cons] at h
          rcases List.mem_cons.mp h with h1 | h1
          · exact absurd h1.symm hc
          · exact h1
        simp only [List.map_cons, hc, if_false]
        rw [List.find?_cons_of_neg _ (by simp [hc]), ih hcs]

/-- `df[n] = vs` followed by reading column `n` gives back `vs`. -/
theorem getColVals_setCol_self (df : Frame) (n : String) (vs : List Val) :
    getColVals (setCol df n vs) n = vs := by
  by_cases h : n ∈ frameCols df
  · rw [setCol, if_pos h]
    simp [getColVals, find?_setCol_mem df n vs h]
  · rw [setCol, if_neg h]
    induction df with
    | nil => simp [getColVals, List.find?]
    | cons c cs ih =>
        rw [frameCols_cons] at h
        have hc : ¬ c.1 = n := fun he => h (List.mem_cons.mpr (Or.inl he.symm))
        have hcs : n ∉ frameCols cs := fun he => h (List.mem_cons.mpr (Or.inr he))
        rw [List.cons_append, getColVals_cons_neg c _ n hc]
        exact ih hcs

/-- Dropping a differently-labelled column does not change a column's values. -/
theorem getColVals_dropCol_ne (df : Frame) (n m : String) (h : n ≠ m) :
    getColVals (dropCol df m) n = getColVals df n := by
  induction df with
  | nil => rfl
  | cons c cs ih =>
      by_cases hcm : c.1 = m
      · have hcn : ¬ c.1 = n := fun he => h (he.symm.trans hcm)
        rw [dropCol_cons_drop c cs m hcm, getColVals_cons_neg c cs n hcn]
        exact ih
      · rw [dropCol_cons_keep c cs m hcm]
        by_cases hcn : c.1 = n
        · rw [getColVals_cons_pos _ _ n hcn, getColVals_cons_pos c cs n hcn]
        · rw [getColVals_cons_neg _ _ n hcn, getColVals_cons_neg c cs n hcn]
          exact ih

/-- Filtering a label out of a label list erases it from the label set. -/
theorem toFinset_filter_ne (l : List String) (b : String) :
    (l.filter (fun c => c ≠ b)).toFinset = l.toFinset.erase b := by
  rw [List.toFinset_filter]
  rw [← Finset.filter_ne' l.toFinset b]
  apply Finset.filter_congr
  intro x _
  simp

/-- C5: for a payload shaped as a mapping with both `fields` and `data`
keys (carrying at most one column that normalizes to `last_seen`, the only
shape pandas accepts without raising), the transformer's column set is the
`fields` list with every `.` replaced by `_`, except that a `last_seen`
column is replaced by a `time_stamp` column whose values are the UTC
conversion of its epoch-second values; and falsy inputs (`None`-like or an
empty record list) give the empty frame rather than an error. -/
theorem transform_purpleair_columns (fields : List String)
    (dataRows : List (List Val))
    (hdup : (fields.map normName).count "last_seen" ≤ 1) :
    ((frameCols (transform_purpleair_data
        (some (.fieldsData fields dataRows)))).toFinset =
      if "last_seen" ∈ fields.map normName
      then insert "time_stamp" ((fields.map normName).toFinset.erase "last_seen")
      else (fields.map normName).toFinset) ∧
    ("last_seen" ∈ fields.map normName →
      getColVals (transform_purpleair_data (some (.fieldsData fields dataRows)))
          "time_stamp" =
        (getColVals (normalize_columns (buildFrame fields dataRows))
          "last_seen").map toDatetimeUtc) ∧
    transform_purpleair_data none = [] ∧
    transform_purpleair_data (some (.records [])) = [] := by
  have hcols : frameCols (normalize_columns (buildFrame fields dataRows)) =
      fields.map normName := by
    rw [frameCols_normalize, frameCols_buildFrame]
  have hT : transform_purpleair_data (some (.fieldsData fields dataRows)) =
      transformCore (buildFrame fields dataRows) := rfl
  by_cases hls : "last_seen" ∈ fields.map normName
  · have hcore : transformCore (buildFrame fields dataRows) =
        dropCol (setCol (normalize_columns (buildFrame fields dataRows))
          "time_stamp"
          ((getColVals (normalize_columns (buildFrame fields dataRows))
            "last_seen").map toDatetimeUtc)) "last_seen" := by
      rw [transformCore]
      rw [if_pos (hcols ▸ hls)]
    refine ⟨?_, fun _ => ?_, rfl, rfl⟩
    · rw [hT, hcore, if_pos hls, frameCols_dropCol, frameCols_setCol, hcols]
      by_cases hts : "time_stamp" ∈ fields.map normName
      · rw [if_pos hts]
        have hmem : "time_stamp" ∈
            ((fields.map normName).toFinset.erase "last_seen") :=
          Finset.mem_erase.mpr ⟨by decide, List.mem_toFinset.mpr hts⟩
        rw [Finset.insert_eq_self.mpr hmem]
        exact toFinset_filter_ne _ _
      · rw [if_neg hts]
        rw [List.filter_append]
        have h1 : (["time_stamp"] : List String).filter
            (fun c => c ≠ "last_seen") = ["time_stamp"] := by decide
        rw [h1, List.toFinset_append, toFinset_filter_ne]
        rw [Finset.union_comm]
        simp [Finset.insert_eq]
    · rw [hT, hcore]
      rw [getColVals_dropCol_ne _ "time_stamp" "last_seen" (by decide)]
      exact getColVals_setCol_self _ "time_stamp" _
  · have hcore : transformCore (buildFrame fields dataRows) =
        normalize_columns (buildFrame fields dataRows) := by
      rw [transformCore]
      rw [if_neg (hcols ▸ hls)]
    refine ⟨?_, fun h => absurd h hls, rfl, rfl⟩
    rw [hT, hcore, if_neg hls, hcols]

/-- Witness for `transform_purpleair_columns` on the spec's end-to-end
payload. -/
theorem transform_purpleair_columns_witness :
    ((frameCols (transform_purpleair_data
        (some (.fieldsData ["sensor_index", "last_seen", "pm2.5"]
          [[Val.intV 101, Val.intV 1700000000, Val.intV 12]])))).toFinset =
      if "last_seen" ∈ ["sensor_index", "last_seen", "pm2.5"].map normName
      then insert "time_stamp"
        ((["sensor_index", "last_seen", "pm2.5"].map normName).toFinset.erase
          "last_seen")
      else (["sensor_index", "last_seen", "pm2.5"].map normName).toFinset) ∧
    ("last_seen" ∈ ["sensor_index", "last_seen", "pm2.5"].map normName →
      getColVals (transform_purpleair_data
          (some (.fieldsData ["sensor_index", "last_seen", "pm2.5"]
            [[Val.intV 101, Val.intV 1700000000, Val.intV 12]]))) "time_stamp" =
        (getColVals (normalize_columns
          (buildFrame ["sensor_index", "last_seen", "pm2.5"]
            [[Val.intV 101, Val.intV 1700000000, Val.intV 12]]))
          "last_seen").map toDatetimeUtc) ∧
    transform_purpleair_data none = [] ∧
    transform_purpleair_data (some (.records [])) = [] :=
  transform_purpleair_columns ["sensor_index", "last_seen", "pm2.5"]
    [[Val.intV 101, Val.intV 1700000000, Val.intV 12]] (by decide)

/-! ### Validator (`src/etl/data_quality.py`) -/

/-- Columns that must be present and non-null. -/
def REQUIRED_COLUMNS : List String := ["sensor_id", "time_stamp"]

/-- Numeric columns that should not contain negative values. -/
def NON_NEGATIVE_COLUMNS : List String := ["pm1_0_atm", "pm2_5_atm", "pm10_0_atm"]

/-- `pd.isnull` on one cell. -/
def isNull : Val → Bool
  | .nullV => true
  | _ => false

/-- `v < 0` on one cell, as pandas evaluates it (False on NaN). -/
def isNegVal : Val → Bool
  | .intV n => decide (n < 0)
  | _ => false

/-- The frame's row count (pandas `len(df)`: the length of its index, read
off any column of a well-formed frame). -/
def nrows : Frame → Nat
  | [] => 0
  | c :: _ => c.2.length

/-- Issues one required column contributes: absent → one missing-column
issue, else nulls anywhere in it → one null-values issue. -/
def missingOrNull (df : Frame) (col : String) : List String :=
  if col ∉ frameCols df then ["Missing column: " ++ col]
  else if (getColVals df col).any isNull then
    ["Null values found in column: " ++ col]
  else []

/-- Issue one non-negative column contributes when present with a negative
value anywhere in it. -/
def negativeIssue (df : Frame) (col : String) : List String :=
  if col ∈ frameCols df ∧ (getColVals df col).any isNegVal then
    ["Negative values found in column: " ++ col]
  else []

/-- The per-row (sensor_id, time_stamp) pairs
(`df.duplicated(subset=["sensor_id", "time_stamp"])` keys). -/
def keyPairs (df : Frame) : List (Val × Val) :=
  (getColVals df "sensor_id").zip (getColVals df "time_stamp")

/-- `df.duplicated(subset=["sensor_id", "time_stamp"]).sum()`: the number
of rows equal on the key to some earlier row, i.e. total rows minus
distinct keys. -/
def dupRowCount (df : Frame) : Nat :=
  (keyPairs df).length - (keyPairs df).dedup.length

/-- The duplicate-records issue, emitted when both key columns exist and
the duplicate count is positive. -/
def dupIssue (df : Frame) : List String :=
  if "sensor_id" ∈ frameCols df ∧ "time_stamp" ∈ frameCols df then
    if 0 < dupRowCount df then
      [toString (dupRowCount df) ++ " duplicate sensor/time_stamp rows"]
    else []
  else []

/-- `validate_dataframe(df)`: empty frame → no issues; otherwise the
required-column loop, the negative-value loop and the duplicate check
append their issues to one list in that order. -/
def validate_dataframe (df : Frame) : List String :=
  if df = [] ∨ nrows df = 0 then []
  else
    REQUIRED_COLUMNS.bind (missingOrNull df) ++
      NON_NEGATIVE_COLUMNS.bind (negativeIssue df) ++ dupIssue df

/-- The spec's duplicate-row count: rows beyond the first occurrence in
each (sensor_id, time_stamp) group, summed over groups. -/
def specDupRows (df : Frame) : Nat :=
  ((keyPairs df).dedup.map (fun p => (keyPairs df).count p - 1)).sum

/-- Summing `f · - 1` over a list of elements with `1 ≤ f ·` subtracts the
list length from the sum of `f`. -/
theorem sum_map_sub_one {α : Type} (l : List α) (f : α → Nat)
    (h : ∀ x ∈ l, 1 ≤ f x) :
    (l.map (fun x => f x - 1)).sum = (l.map f).sum - l.length := by
  induction l with
  | nil => rfl
  | cons a rest ih =>
      have ha : 1 ≤ f a := h a (List.mem_cons_self a rest)
      have hrest := ih (fun x hx => h x (List.mem_cons_of_mem a hx))
      have hlen : rest.length ≤ (rest.map f).sum := by
        calc rest.length = (rest.map (fun _ => 1)).sum := by
              simp [List.sum_map_count_dedup_eq_length]
          _ ≤ (rest.map f).sum := by
              apply List.sum_le_sum
              intro x hx
              exact h x (List.mem_cons_of_mem a hx)
      simp only [List.map_cons, List.sum_cons, List.length_cons]
      omega

/-- The two ways of deciding equality of key pairs (component-wise `BEq`
and the product's `DecidableEq`) count alike. -/
theorem count_instances_eq (l : List (Val × Val)) (p : Val × Val) :
    List.count p l = @List.count (Val × Val) instBEqOfDecidableEq p l := by
  induction l with
  | nil => rfl
  | cons a rest ih =>
      rw [List.count_cons, @List.count_cons _ instBEqOfDecidableEq, ih]
      congr 1
      by_cases h : a = p
      · subst h
        have h1 : (a == a) = true := by simp
        have h2 : (@BEq.beq _ instBEqOfDecidableEq a a) = true := by
          simp [instBEqOfDecidableEq]
        rw [h1, h2]
      · have h1 : (a == p) = false := beq_eq_false_iff_ne.mpr h
        have h2 : (@BEq.beq _ instBEqOfDecidableEq a p) = false := by
          simp [instBEqOfDecidableEq, h]
        rw [h1, h2]

/-- The pandas duplicated-sum equals the spec's per-group duplicate-row
count. -/
theorem dupRowCount_eq_specDupRows (df : Frame) :
    dupRowCount df = specDupRows df := by
  unfold dupRowCount specDupRows
  rw [sum_map_sub_one _ _ (fun p hp => List.count_pos_iff.mpr
    (List.mem_dedup.mp hp))]
  congr 1
  have hm : ((keyPairs df).dedup.map (fun p => List.count p (keyPairs df))) =
      ((keyPairs df).dedup.map
        (fun p => @List.count _ instBEqOfDecidableEq p (keyPairs df))) :=
    List.map_congr_left (fun p _ => count_instances_eq (keyPairs df) p)
  rw [hm, List.sum_map_count_dedup_eq_length]

/-- A duplicate-records message differs from any message without a slash. -/
theorem dup_msg_ne (d : Nat) (m : String) (hm : '/' ∉ m.data) :
    toString d ++ " duplicate sensor/time_stamp rows" ≠ m := by
  intro h
  apply hm
  rw [← h, String.data_append]
  exact List.mem_append_right _ (by decide)

/-- On non-empty frames, `validate_dataframe` is the concatenation of the
issues of the two required columns, the three non-negative columns and the
duplicate check, in source order. -/
theorem validate_dataframe_nonempty (df : Frame) (h1 : df ≠ []) (h2 : nrows df ≠ 0) :
    validate_dataframe df =
      missingOrNull df "sensor_id" ++ (missingOrNull df "time_stamp" ++
        (negativeIssue df "pm1_0_atm" ++ (negativeIssue df "pm2_5_atm" ++
          (negativeIssue df "pm10_0_atm" ++ dupIssue df)))) := by
  rw [validate_dataframe, if_neg (by push_neg; exact ⟨h1, h2⟩)]
  simp [REQUIRED_COLUMNS, NON_NEGATIVE_COLUMNS, List.append_assoc]

/-- The count of a required column's own missing-column message among its
issues is 1 exactly when the column is absent. -/
theorem count_missingOrNull_self (df : Frame) (col m : String)
    (hm : "Missing column: " ++ col = m)
    (hnull : "Null values found in column: " ++ col ≠ m) :
    (missingOrNull df col).count m = if col ∈ frameCols df then 0 else 1 := by
  unfold missingOrNull
  by_cases h : col ∈ frameCols df
  · rw [if_neg (not_not_intro h), if_pos h]
    by_cases hnl : (getColVals df col).any isNull
    · rw [if_pos hnl]
      simp [List.count_cons, beq_eq_false_iff_ne.mpr hnull]
    · rw [if_neg hnl]
      rfl
  · rw [if_pos h, if_neg h]
    simp [List.count_cons, hm]

/-- A message that is neither a required column's missing-column nor its
null-values message never occurs among that column's issues. -/
theorem count_missingOrNull_ne (df : Frame) (col m : String)
    (hm : "Missing column: " ++ col ≠ m)
    (hnull : "Null values found in column: " ++ col ≠ m) :
    (missingOrNull df col).count m = 0 := by
  unfold missingOrNull
  by_cases h : col ∈ frameCols df
  · rw [if_neg (not_not_intro h)]
    by_cases hnl : (getColVals df col).any isNull
    · rw [if_pos hnl]
      simp [List.count_cons, beq_eq_false_iff_ne.mpr hnull]
    · rw [if_neg hnl]
      rfl
  · rw [if_pos h]
    simp [List.count_cons, beq_eq_false_iff_ne.mpr hm]

/-- A message other than a column's negative-values message never occurs
among that column's negative-value issues. -/
theorem count_negativeIssue_ne (df : Frame) (col m : String)
    (hne : "Negative values found in column: " ++ col ≠ m) :
    (negativeIssue df col).count m = 0 := by
  unfold negativeIssue
  by_cases h : col ∈ frameCols df ∧ (getColVals df col).any isNegVal
  · rw [if_pos h]
    simp [List.count_cons, beq_eq_false_iff_ne.mpr hne]
  · rw [if_neg h]
    rfl

/-- A message without a slash never occurs among the duplicate issues. -/
theorem count_dupIssue_noslash (df : Frame) (m : String) (hm : '/' ∉ m.data) :
    (dupIssue df).count m = 0 := by
  unfold dupIssue
  by_cases h1 : "sensor_id" ∈ frameCols df ∧ "time_stamp" ∈ frameCols df
  · rw [if_pos h1]
    by_cases h2 : 0 < dupRowCount df
    · rw [if_pos h2]
      simp [List.count_cons, beq_eq_false_iff_ne.mpr (dup_msg_ne _ _ hm)]
    · rw [if_neg h2]
      rfl
  · rw [if_neg h1]
    rfl

/-- A required column whose two possible messages hold no slash contributes
no slash-bearing issue. -/
theorem countP_missingOrNull_noslash (df : Frame) (col : String)
    (h1 : '/' ∉ col.data) :
    (missingOrNull df col).countP (fun s => decide ('/' ∈ s.data)) = 0 := by
  unfold missingOrNull
  by_cases h : col ∈ frameCols df
  · rw [if_neg (not_not_intro h)]
    by_cases hnl : (getColVals df col).any isNull
    · rw [if_pos hnl]
      simp [List.countP_cons, h1]
    · rw [if_neg hnl]
      rfl
  · rw [if_pos h]
    simp [List.countP_cons, h1]

/-- A non-negative column whose message holds no slash contributes no
slash-bearing issue. -/
theorem countP_negativeIssue_noslash (df : Frame) (col : String)
    (h1 : '/' ∉ col.data) :
    (negativeIssue df col).countP (fun s => decide ('/' ∈ s.data)) = 0 := by
  unfold negativeIssue
  by_cases h : col ∈ frameCols df ∧ (getColVals df col).any isNegVal
  · rw [if_pos h]
    simp [List.countP_cons, h1]
  · rw [if_neg h]
    rfl

/-- When both key columns exist and duplicates occur, the duplicate check
contributes exactly one slash-bearing issue. -/
theorem countP_dupIssue_one (df : Frame)
    (hs : "sensor_id" ∈ frameCols df) (ht : "time_stamp" ∈ frameCols df)
    (hd : 0 < dupRowCount df) :
    (dupIssue df).countP (fun s => decide ('/' ∈ s.data)) = 1 := by
  unfold dupIssue
  rw [if_pos ⟨hs, ht⟩, if_pos hd]
  have hmem : '/' ∈ (toString (dupRowCount df) ++
      " duplicate sensor/time_stamp rows").data := by
    rw [String.data_append]
    exact List.mem_append_right _ (by decide)
  simp [List.countP_cons, hmem]

/-- C6 counterexample: a frame with a column but zero rows is `empty` for
pandas, so `validate_dataframe` returns no issues at all even though the
required columns `sensor_id` and `time_stamp` are absent — the claim's
"exactly one missing-column issue per absent column, independent of ... the
number of rows" fails on it. -/
theorem validate_zero_rows_counterexample :
    validate_dataframe [("pm2_5_atm", ([] : List Val))] = [] ∧
    ¬ "sensor_id" ∈ frameCols [("pm2_5_atm", ([] : List Val))] ∧
    ¬ "time_stamp" ∈ frameCols [("pm2_5_atm", ([] : List Val))] ∧
    (validate_dataframe [("pm2_5_atm", ([] : List Val))]).count
      "Missing column: sensor_id" = 0 := by
  refine ⟨?_, by decide, by decide, ?_⟩ <;> rfl

/-- C6 (amended to non-empty frames): for every frame with at least one
column and at least one row, `validate_dataframe` reports exactly one
missing-column issue per absent required column — and none for a present
one — independent of the remaining row content. -/
theorem validate_missing_column_issues (df : Frame) (h1 : df ≠ [])
    (h2 : nrows df ≠ 0)
    (habs : ¬ "sensor_id" ∈ frameCols df ∨ ¬ "time_stamp" ∈ frameCols df) :
    (validate_dataframe df).count "Missing column: sensor_id" =
      (if "sensor_id" ∈ frameCols df then 0 else 1) ∧
    (validate_dataframe df).count "Missing column: time_stamp" =
      (if "time_stamp" ∈ frameCols df then 0 else 1) := by
  rw [validate_dataframe_nonempty df h1 h2]
  constructor
  · simp only [List.count_append]
    rw [count_missingOrNull_self df "sensor_id" "Missing column: sensor_id" (by decide) (by decide),
      count_missingOrNull_ne df "time_stamp" _ (by decide) (by decide),
      count_negativeIssue_ne df "pm1_0_atm" _ (by decide),
      count_negativeIssue_ne df "pm2_5_atm" _ (by decide),
      count_negativeIssue_ne df "pm10_0_atm" _ (by decide),
      count_dupIssue_noslash df _ (by decide)]
    omega
  · simp only [List.count_append]
    rw [count_missingOrNull_self df "time_stamp" "Missing column: time_stamp" (by decide) (by decide),
      count_missingOrNull_ne df "sensor_id" _ (by decide) (by decide),
      count_negativeIssue_ne df "pm1_0_atm" _ (by decide),
      count_negativeIssue_ne df "pm2_5_atm" _ (by decide),
      count_negativeIssue_ne df "pm10_0_atm" _ (by decide),
      count_dupIssue_noslash df _ (by decide)]
    omega

/-- Witness for `validate_missing_column_issues` at a concrete one-row
frame missing both required columns. -/
theorem validate_missing_column_issues_witness :
    (validate_dataframe [("pm2_5_atm", [Val.intV 5])]).count
      "Missing column: sensor_id" =
      (if "sensor_id" ∈ frameCols [("pm2_5_atm", [Val.intV 5])] then 0 else 1) ∧
    (validate_dataframe [("pm2_5_atm", [Val.intV 5])]).count
      "Missing column: time_stamp" =
      (if "time_stamp" ∈ frameCols [("pm2_5_atm", [Val.intV 5])] then 0 else 1) :=
  validate_missing_column_issues [("pm2_5_atm", [Val.intV 5])]
    (by decide) (by decide) (Or.inl (by decide))

/-- C7: on a non-empty frame carrying both `sensor_id` and `time_stamp`
with at least one duplicated key pair, `validate_dataframe` reports exactly
one duplicate issue (only duplicate messages mention `sensor/time_stamp`,
counted here by their slash), its stated count is the number of duplicate
rows — rows beyond the first occurrence in each group, not the number of
groups — and that number agrees with the pandas duplicated-sum the code
computes. -/
theorem validate_duplicate_issue (df : Frame) (h1 : df ≠ [])
    (h2 : nrows df ≠ 0)
    (hs : "sensor_id" ∈ frameCols df) (ht : "time_stamp" ∈ frameCols df)
    (hd : 0 < dupRowCount df) :
    (validate_dataframe df).count
        (toString (specDupRows df) ++ " duplicate sensor/time_stamp rows") = 1 ∧
    (validate_dataframe df).countP (fun s => decide ('/' ∈ s.data)) = 1 ∧
    dupRowCount df = specDupRows df := by
  have hspec := dupRowCount_eq_specDupRows df
  refine ⟨?_, ?_, hspec⟩
  · rw [validate_dataframe_nonempty df h1 h2]
    simp only [List.count_append]
    rw [count_missingOrNull_ne df "sensor_id" _
        (Ne.symm (dup_msg_ne _ _ (by decide)))
        (Ne.symm (dup_msg_ne _ _ (by decide))),
      count_missingOrNull_ne df "time_stamp" _
        (Ne.symm (dup_msg_ne _ _ (by decide)))
        (Ne.symm (dup_msg_ne _ _ (by decide))),
      count_negativeIssue_ne df "pm1_0_atm" _
        (Ne.symm (dup_msg_ne _ _ (by decide))),
      count_negativeIssue_ne df "pm2_5_atm" _
        (Ne.symm (dup_msg_ne _ _ (by decide))),
      count_negativeIssue_ne df "pm10_0_atm" _
        (Ne.symm (dup_msg_ne _ _ (by decide)))]
    have hdup1 : (dupIssue df).count
        (toString (specDupRows df) ++ " duplicate sensor/time_stamp rows") = 1 := by
      unfold dupIssue
      rw [if_pos ⟨hs, ht⟩, if_pos hd, hspec]
      simp [List.count_cons]
    omega
  · rw [validate_dataframe_nonempty df h1 h2]
    simp only [List.countP_append]
    rw [countP_missingOrNull_noslash df "sensor_id" (by decide),
      countP_missingOrNull_noslash df "time_stamp" (by decide),
      countP_negativeIssue_noslash df "pm1_0_atm" (by decide),
      countP_negativeIssue_noslash df "pm2_5_atm" (by decide),
      countP_negativeIssue_noslash df "pm10_0_atm" (by decide),
      countP_dupIssue_one df hs ht hd]

/-- Witness for `validate_duplicate_issue` at a concrete two-row frame
whose rows share the same (sensor_id, time_stamp) key. -/
theorem validate_duplicate_issue_witness :
    (validate_dataframe
        [("sensor_id", [Val.intV 1, Val.intV 1]),
         ("time_stamp", [Val.tsUtc 0, Val.tsUtc 0])]).count
      (toString (specDupRows
        [("sensor_id", [Val.intV 1, Val.intV 1]),
         ("time_stamp", [Val.tsUtc 0, Val.tsUtc 0])]) ++
        " duplicate sensor/time_stamp rows") = 1 ∧
    (validate_dataframe
        [("sensor_id", [Val.intV 1, Val.intV 1]),
         ("time_stamp", [Val.tsUtc 0, Val.tsUtc 0])]).countP
      (fun s => decide ('/' ∈ s.data)) = 1 ∧
    dupRowCount
        [("sensor_id", [Val.intV 1, Val.intV 1]),
         ("time_stamp", [Val.tsUtc 0, Val.tsUtc 0])] =
      specDupRows
        [("sensor_id", [Val.intV 1, Val.intV 1]),
         ("time_stamp", [Val.tsUtc 0, Val.tsUtc 0])] :=
  validate_duplicate_issue
    [("sensor_id", [Val.intV 1, Val.intV 1]),
     ("time_stamp", [Val.tsUtc 0, Val.tsUtc 0])]
    (by decide) (by decide) (by decide) (by decide) (by decide)

/-! ### Orchestrator exit policy (`src/etl/main.py`) -/

/-- The run statistics dictionary `AirQualityETL.stats` (counting fields
only; the timestamps play no role in the exit policy). -/
structure RunStats where
  purpleair_extracted : Nat
  purpleair_loaded : Nat
  rema_extracted : Nat
  rema_loaded : Nat
  errors : Nat
  quality_errors : Nat
deriving Repr, DecidableEq

/-- The aggregates `verify_data` reads back from the destination table. -/
structure VerifyStats where
  total_records : Nat
  unique_sensors : Nat
deriving Repr, DecidableEq

/-- `AirQualityETL.verify_data()`: the whole body sits in a
`try/except Exception` whose handler only logs, so the method always
returns normally; `q` is the outcome of the read-only queries. -/
def verify_data (q : Except String VerifyStats) : List String :=
  match q with
  | .ok v =>
      ["Verifying loaded data...", "Database verification:",
        "Total records: " ++ toString v.total_records]
  | .error e => ["Verifying loaded data...", "Error verifying data: " ++ e]

/-- Observable outcome of `main()`: the process exit status and the log
lines of the verification phase. -/
structure MainResult where
  exitCode : Nat
  logs : List String
deriving Repr, DecidableEq

/-- `main()`: exit 1 when configuration validation fails; otherwise run the
ETL — an escaping exception exits 1 — then verify only when zero hard
errors were recorded, and exit 0 exactly on zero hard errors. -/
def main (configValid : Bool) (runOutcome : Except String RunStats)
    (verifyResult : Except String VerifyStats) : MainResult :=
  if ¬ configValid then ⟨1, ["Configuration validation failed"]⟩
  else
    match runOutcome with
    | .error e => ⟨1, ["Fatal error in ETL: " ++ e]⟩
    | .ok stats =>
        ⟨if stats.errors = 0 then 0 else 1,
         if stats.errors = 0 then verify_data verifyResult else []⟩

/-- C9: the exit status is 0 exactly when configuration validated, the run
completed and recorded zero hard errors, and 1 otherwise; the verification
outcome never influences the exit status; the quality-error count never
influences the exit status; and a verification failure under zero hard
errors is logged while the process still exits 0. -/
theorem main_exit_code_policy (cv : Bool) (ro : Except String RunStats)
    (vr : Except String VerifyStats) :
    ((main cv ro vr).exitCode = 0 ↔
      (cv = true ∧ ∃ s, ro = Except.ok s ∧ s.errors = 0)) ∧
    ((main cv ro vr).exitCode = 0 ∨ (main cv ro vr).exitCode = 1) ∧
    (∀ vr', (main cv ro vr).exitCode = (main cv ro vr').exitCode) ∧
    (∀ s : RunStats, ∀ q : Nat,
      (main cv (Except.ok (RunStats.mk s.purpleair_extracted s.purpleair_loaded
        s.rema_extracted s.rema_loaded s.errors q)) vr).exitCode =
      (main cv (Except.ok s) vr).exitCode) ∧
    (∀ s : RunStats, ∀ e : String, s.errors = 0 → cv = true →
      (main cv (Except.ok s) (Except.error e)).exitCode = 0 ∧
      ("Error verifying data: " ++ e) ∈
        (main cv (Except.ok s) (Except.error e)).logs) := by
  cases cv with
  | false =>
      refine ⟨by simp [main], by simp [main], fun vr' => rfl, fun s q => rfl,
        fun s e _ hcv => by cases hcv⟩
  | true =>
      cases ro with
      | error e =>
          refine ⟨by simp [main], by simp [main], fun vr' => rfl,
            fun s q => ?_, fun s e' he _ => ?_⟩
          · by_cases hs : s.errors = 0 <;> simp [main, hs]
          · constructor
            · simp [main, he]
            · simp [main, he, verify_data]
      | ok s =>
          by_cases hs : s.errors = 0
          · refine ⟨by simp [main, hs], by simp [main, hs], fun vr' => by
              simp [main, hs], fun s' q => ?_, fun s' e' he _ => ?_⟩
            · by_cases hs' : s'.errors = 0 <;> simp [main, hs']
            · exact ⟨by simp [main, he], by simp [main, he, verify_data]⟩
          · refine ⟨?_, by simp [main, hs], fun vr' => by simp [main, hs],
              fun s' q => ?_, fun s' e' he _ => ?_⟩
            · simp only [main, hs]
              constructor
              · intro h
                simp at h
              · rintro ⟨-, s', hok, he⟩
                cases hok
                exact absurd he hs
            · by_cases hs' : s'.errors = 0 <;> simp [main, hs']
            · exact ⟨by simp [main, he], by simp [main, he, verify_data]⟩

/-- Witness for `main_exit_code_policy`: a verification failure is logged,
the run still exits 0. -/
theorem main_exit_code_policy_witness :
    (main true (Except.ok (RunStats.mk 1 1 0 0 0 3)) (Except.error "boom")).exitCode
      = 0 ∧
    ("Error verifying data: " ++ "boom") ∈
      (main true (Except.ok (RunStats.mk 1 1 0 0 0 3)) (Except.error "boom")).logs :=
  (main_exit_code_policy true (Except.ok (RunStats.mk 1 1 0 0 0 3))
    (Except.error "boom")).2.2.2.2 (RunStats.mk 1 1 0 0 0 3) "boom" rfl rfl

end AirQuality
